import Mathlib

/-!
Verification development for the GoVector logging library (package govec,
file govec/govec.go).  The Go source is shallowly embedded: each Go
function becomes a Lean definition over explicit state.

Modelling conventions:
* The vector-clock package (govec/vclock) is imported by govec.go but its
  source is not part of the package under study; its operations (New, Tick,
  Merge, FindTicks, GetMap, ReturnVCString) are modelled from the spec,
  section 4.1, as operations on an association list from process id to
  counter.  Every such definition carries a doc comment starting with
  "Modelled from the spec:".
* msgpack byte slices are modelled as token streams (List MsgToken): one
  token per msgpack value written by the custom encoder.  Application
  payloads are modelled by the opaque value type GoValue; the constructor
  GoValue.vfunc stands for a Go value of a kind the msgpack codec rejects
  (a func or chan value), every other constructor is encodable.
* GoLog state carries model fields for the observable environment:
  sink (the text appended so far to the log file), fileOk (whether opening
  and writing the log file succeed; both failure branches of Flush only
  clear its result flag), locked (whether gv.mutex is currently held) and
  now (the wall-clock string used when usetimestamps is set).
* Console output (printColoredMessage, the internal diagnostic logger and
  the getColor table) has no observable state in any claim and is omitted.
-/

/-- LogPriority enum from govec.go (DEBUG, INFO, WARNING, ERROR, FATAL). -/
inductive LogPriority where
  | DEBUG
  | INFO
  | WARNING
  | ERROR
  | FATAL
deriving DecidableEq, Repr

/-- Numeric value of the Go enum (iota order). -/
def LogPriority.toNat : LogPriority → Nat
  | .DEBUG => 0
  | .INFO => 1
  | .WARNING => 2
  | .ERROR => 3
  | .FATAL => 4

/-- The Go comparison Priority >= gv.priority on the enum. -/
def priorityGe (a b : LogPriority) : Bool := decide (b.toNat ≤ a.toNat)

/-- getPrefixString from govec.go. -/
def LogPriority.getPrefixString : LogPriority → String
  | .DEBUG => "DEBUG"
  | .INFO => "NORMAL"
  | .WARNING => "WARNING"
  | .ERROR => "ERROR"
  | .FATAL => "FATAL"

/-- Opaque application payload values (interface values in Go).  vfunc
stands for a value kind the msgpack codec does not support. -/
inductive GoValue where
  | vnil
  | vstr (s : String)
  | vint (n : Int)
  | vfunc
deriving DecidableEq, Repr

/-- Whether the msgpack codec supports this payload kind. -/
def GoValue.encodable : GoValue → Bool
  | .vfunc => false
  | _ => true

/-- One msgpack value on the wire, as written by the custom encoder:
EncodeString, EncodeUint, EncodeMapLen, or an opaque payload value. -/
inductive MsgToken where
  | tstr (s : String)
  | tuint (n : Nat)
  | tmapLen (n : Nat)
  | tval (v : GoValue)
deriving DecidableEq, Repr

/-- dec.DecodeString: reads one value, which must be a string. -/
def readStr : List MsgToken → Except String (String × List MsgToken)
  | [] => .error "EOF"
  | .tstr s :: rest => .ok (s, rest)
  | _ :: _ => .error "msgpack: type mismatch, expected string"

/-- dec.DecodeUint64: reads one value, which must be an unsigned integer. -/
def readUint : List MsgToken → Except String (Nat × List MsgToken)
  | [] => .error "EOF"
  | .tuint n :: rest => .ok (n, rest)
  | _ :: _ => .error "msgpack: type mismatch, expected uint"

/-- dec.DecodeMapLen: reads one value, which must be a map header. -/
def readMapLen : List MsgToken → Except String (Nat × List MsgToken)
  | [] => .error "EOF"
  | .tmapLen n :: rest => .ok (n, rest)
  | _ :: _ => .error "msgpack: type mismatch, expected map"

/-- dec.Decode into an interface value: reads one opaque payload value. -/
def readVal : List MsgToken → Except String (GoValue × List MsgToken)
  | [] => .error "EOF"
  | .tval v :: rest => .ok (v, rest)
  | _ :: _ => .error "msgpack: type mismatch, expected value"

/-- Modelled from the spec: the vclock package is not part of the source
under study.  Per section 4.1 a vector clock is a mapping from process id
to uint64 counter; we represent it as an association list with unique keys
(insertion order irrelevant, lookups take the first match). -/
abbrev VClock := List (String × Nat)

/-- Modelled from the spec: clock lookup (FindTicks returns the counter
for pid and whether it is present). -/
def vcFind : VClock → String → Option Nat
  | [], _ => none
  | (k, v) :: rest, pid => if k = pid then some v else vcFind rest pid

/-- Modelled from the spec: map update, overwriting the entry for pid if
present and appending it otherwise. -/
def vcSet : VClock → String → Nat → VClock
  | [], pid, n => [(pid, n)]
  | (k, v) :: rest, pid, n =>
    if k = pid then (k, n) :: rest else (k, v) :: vcSet rest pid n

/-- Modelled from the spec: Tick(pid) increments counters[pid] by 1,
creating the entry at 1 if absent (section 4.1). -/
def vcTick (vc : VClock) (pid : String) : VClock :=
  vcSet vc pid ((vcFind vc pid).getD 0 + 1)

/-- Modelled from the spec: Merge(otherCounters) sets, for every key k of
the other map, counters[k] = max(counters[k] default 0, otherCounters[k]);
keys only in the local clock are untouched (section 4.1). -/
def vcMerge (vc : VClock) (other : List (String × Nat)) : VClock :=
  other.foldl (fun acc p => vcSet acc p.1 (max ((vcFind acc p.1).getD 0) p.2)) vc

/-- Modelled from the spec: New() is the empty clock. -/
def vcNew : VClock := []

/-- Insertion into a key-sorted list, for the canonical rendering. -/
def vcInsertSorted (p : String × Nat) : List (String × Nat) → List (String × Nat)
  | [] => [p]
  | q :: rest => if p.1 < q.1 then p :: q :: rest else q :: vcInsertSorted p rest

/-- Modelled from the spec: ReturnVCString produces a deterministic,
key-sorted pid:count rendering of the clock (section 4.1 fixes only that
the rendering is stable and key-sorted, not the exact format). -/
def returnVCString (vc : VClock) : String :=
  String.intercalate " " ((vc.foldr vcInsertSorted []).map (fun p => p.1 ++ ":" ++ toString p.2))

/-- ClockPayload from govec.go: the structure sent on the wire. -/
structure ClockPayload where
  Pid : String
  VcMap : List (String × Nat)
  Payload : GoValue
deriving DecidableEq, Repr

/-- Token stream written by ClockPayload.EncodeMsgpack for the VcMap
range loop: EncodeString(key) then EncodeUint(value) per entry. -/
def encodePairs : List (String × Nat) → List MsgToken
  | [] => []
  | (k, v) :: rest => .tstr k :: .tuint v :: encodePairs rest

/-- The full token stream written by ClockPayload.EncodeMsgpack:
EncodeString(Pid), Encode(Payload), EncodeMapLen, then the entries. -/
def encTokens (d : ClockPayload) : List MsgToken :=
  .tstr d.Pid :: .tval d.Payload :: .tmapLen d.VcMap.length :: encodePairs d.VcMap

/-- ClockPayload.EncodeMsgpack / msgpack.Marshal of a ClockPayload: the
only fallible step is enc.Encode(d.Payload), which rejects unsupported
value kinds; Marshal returns nil bytes on error. -/
def encodeMsgpack (d : ClockPayload) : Except String (List MsgToken) :=
  if d.Payload.encodable then .ok (encTokens d) else
  .error "msgpack: Encode(unsupported payload kind)"

/-- The decode loop of ClockPayload.DecodeMsgpack: reads count key/value
pairs into the local vcMap (map insert, overwriting duplicates), returning
the map built so far, the first error, and the remaining stream. -/
def decodeVcPairs : Nat → List (String × Nat) → List MsgToken →
    List (String × Nat) × Option String × List MsgToken
  | 0, acc, s => (acc, none, s)
  | n + 1, acc, s =>
    match readStr s with
    | .error e => (acc, some e, s)
    | .ok (k, s1) =>
      match readUint s1 with
      | .error e => (acc, some e, s1)
      | .ok (v, s2) => decodeVcPairs n (vcSet acc k v) s2

/-- The trailing dec.Decode(&d.Pid, &d.Payload, &d.VcMap) call at the end
of ClockPayload.DecodeMsgpack: decodes a string, an opaque value and a
map in sequence, mutating d field by field and stopping at the first
error (on an exhausted stream it fails immediately, leaving d unchanged). -/
def decodeTrailing (d : ClockPayload) (s : List MsgToken) : ClockPayload × Option String :=
  match readStr s with
  | .error e => (d, some e)
  | .ok (pid, s1) =>
    let d1 := { d with Pid := pid }
    match readVal s1 with
    | .error e => (d1, some e)
    | .ok (p, s2) =>
      let d2 := { d1 with Payload := p }
      match readMapLen s2 with
      | .error e => (d2, some e)
      | .ok (n, s3) =>
        match decodeVcPairs n [] s3 with
        | (_, some e, _) => (d2, some e)
        | (m, none, _) => ({ d2 with VcMap := m }, none)

/-- ClockPayload.DecodeMsgpack / msgpack.Unmarshal into a ClockPayload:
mutates d step by step exactly as the Go method does and returns the final
value of d together with the returned error.  Note the source performs a
further dec.Decode(&d.Pid, &d.Payload, &d.VcMap) after the handwritten
decode and only then assigns d.VcMap = vcMap, so the built map survives
but the error of the trailing read is returned. -/
def decodeMsgpack (d : ClockPayload) (s : List MsgToken) : ClockPayload × Option String :=
  match readStr s with
  | .error e => (d, some e)
  | .ok (pid, s1) =>
    let d1 := { d with Pid := pid }
    match readVal s1 with
    | .error e => (d1, some e)
    | .ok (p, s2) =>
      let d2 := { d1 with Payload := p }
      match readMapLen s2 with
      | .error e => (d2, some e)
      | .ok (mapLen, s3) =>
        match decodeVcPairs mapLen [] s3 with
        | (_, some e, _) => (d2, some e)
        | (vcMap, none, s4) =>
          let r := decodeTrailing d2 s4
          ({ r.1 with VcMap := vcMap }, r.2)

/-- GoLogConfig from govec.go.  The pluggable strategy fields are omitted:
this embedding fixes the default msgpack strategy, i.e. the InitGoVector
branch taken when config.EncodingStrategy or DecodingStrategy is nil. -/
structure GoLogConfig where
  Buffered : Bool
  PrintOnScreen : Bool
  AppendLog : Bool
  UseTimestamps : Bool
  LogToFile : Bool
  Priority : LogPriority
deriving DecidableEq, Repr

/-- GetDefaultConfig from govec.go. -/
def getDefaultConfig : GoLogConfig :=
  { Buffered := false, PrintOnScreen := false, AppendLog := false,
    UseTimestamps := false, LogToFile := true, Priority := .INFO }

/-- The GoLog struct.  sink, fileOk, locked and now are model fields for
the log file contents, log-file health, the mutex and wall-clock time. -/
structure GoLog where
  pid : String
  currentVC : VClock
  printonscreen : Bool
  logging : Bool
  buffered : Bool
  usetimestamps : Bool
  appendLog : Bool
  priority : LogPriority
  logfile : String
  output : String
  sink : String
  fileOk : Bool
  locked : Bool
  now : String

/-- Flush from govec.go: opens the log file, writes the whole buffered
output, clears gv.output unconditionally, and returns false if either the
open or the write failed (both failure branches only clear complete). -/
def flush (gv : GoLog) : GoLog × Bool :=
  let complete := gv.fileOk
  let gv1 := if gv.fileOk then { gv with sink := gv.sink ++ gv.output } else gv
  ({ gv1 with output := "" }, complete)

/-- logThis from govec.go: formats the record (optional timestamp, then
"pid vcstring", newline, message, newline), appends it to gv.output, and
flushes immediately when unbuffered.  Console echo has no modelled state. -/
def logThis (gv : GoLog) (Message ProcessID VCString : String)
    (_Priority : LogPriority) : GoLog × Bool :=
  let ts := if gv.usetimestamps then gv.now ++ " " else ""
  let record := ts ++ ProcessID ++ " " ++ VCString ++ "\n" ++ Message ++ "\n"
  let gv1 := { gv with output := gv.output ++ record }
  if !gv1.buffered then flush gv1 else (gv1, true)

/-- logWriteWrapper from govec.go: logs only when logging is enabled; the
named return success defaults to false otherwise.  The failure message
goes to the internal diagnostic logger (no modelled state). -/
def logWriteWrapper (gv : GoLog) (logMessage _errorMessage : String)
    (P : LogPriority) : GoLog × Bool :=
  if gv.logging then
    logThis gv logMessage gv.pid (returnVCString gv.currentVC) P
  else (gv, false)

/-- tickClock from govec.go: the FindTicks self-check only prints a
warning on the internal logger, then the clock is ticked. -/
def tickClock (gv : GoLog) : GoLog :=
  { gv with currentVC := vcTick gv.currentVC gv.pid }

/-- LogLocalEventWithPriority from govec.go: lock, and if the priority
passes the threshold tick the clock and log; the mutex is unlocked
unconditionally before returning. -/
def logLocalEventWithPriority (gv : GoLog) (LogMessage : String)
    (Priority : LogPriority) : GoLog × Bool :=
  let gv1 := { gv with locked := true }
  if priorityGe Priority gv1.priority then
    let pfx := Priority.getPrefixString ++ " - "
    let gv2 := tickClock gv1
    let r := logWriteWrapper gv2 (pfx ++ LogMessage)
      "Something went Wrong, Could not Log LocalEvent!" Priority
    ({ r.1 with locked := false }, r.2)
  else ({ gv1 with locked := false }, true)

/-- LogLocalEvent from govec.go. -/
def logLocalEvent (gv : GoLog) (Message : String) : GoLog × Bool :=
  logLocalEventWithPriority gv Message gv.priority

/-- PrepareSendWithPriority from govec.go: lock, and if the priority
passes the threshold tick the clock, log, snapshot the clock into a
ClockPayload and encode it (an encoding error is only printed on the
internal logger, returning nil bytes); note the mutex is only unlocked
inside the priority-passing branch, exactly as in the source. -/
def prepareSendWithPriority (gv : GoLog) (mesg : String) (buf : GoValue)
    (Priority : LogPriority) : GoLog × List MsgToken :=
  let gv1 := { gv with locked := true }
  if priorityGe Priority gv1.priority then
    let gv2 := tickClock gv1
    let r := logWriteWrapper gv2 mesg
      "Something went wrong, could not log prepare send" Priority
    let gv3 := r.1
    let d : ClockPayload := { Pid := gv3.pid, VcMap := gv3.currentVC, Payload := buf }
    match encodeMsgpack d with
    | .ok encodedBytes => ({ gv3 with locked := false }, encodedBytes)
    | .error _ => ({ gv3 with locked := false }, [])
  else (gv1, [])

/-- PrepareSend from govec.go. -/
def prepareSend (gv : GoLog) (mesg : String) (buf : GoValue) : GoLog × List MsgToken :=
  prepareSendWithPriority gv mesg buf gv.priority

/-- mergeIncomingClock from govec.go: tick the local clock, merge the
incoming map, then log. -/
def mergeIncomingClock (gv : GoLog) (mesg : String) (e : ClockPayload)
    (Priority : LogPriority) : GoLog :=
  let gv1 := tickClock gv
  let gv2 := { gv1 with currentVC := vcMerge gv1.currentVC e.VcMap }
  (logWriteWrapper gv2 mesg "Something went Wrong, Could not Log!" Priority).1

/-- UnpackReceiveWithPriority from govec.go: lock, and if the priority
passes the threshold decode the buffer into a fresh ClockPayload whose
Payload field starts as the caller's unpack target (a decode error is only
printed on the internal logger), then tick and merge unconditionally; the
mutex is only unlocked inside the priority-passing branch, exactly as in
the source.  The second component is the payload value left in the
caller's unpack target. -/
def unpackReceiveWithPriority (gv : GoLog) (mesg : String) (buf : List MsgToken)
    (unpack : GoValue) (Priority : LogPriority) : GoLog × GoValue :=
  let gv1 := { gv with locked := true }
  if priorityGe Priority gv1.priority then
    let e0 : ClockPayload := { Pid := "", VcMap := [], Payload := unpack }
    let r := decodeMsgpack e0 buf
    let e := r.1
    let gv2 := mergeIncomingClock gv1 mesg e Priority
    ({ gv2 with locked := false }, e.Payload)
  else (gv1, unpack)

/-- UnpackReceive from govec.go. -/
def unpackReceive (gv : GoLog) (mesg : String) (buf : List MsgToken)
    (unpack : GoValue) : GoLog × GoValue :=
  unpackReceiveWithPriority gv mesg buf unpack gv.priority

/-- prepareLogFile from govec.go, on the fresh-file path (the log file
does not pre-exist): in append mode an execution header is logged first,
then the Initialization Complete record. -/
def prepareLogFile (gv : GoLog) : GoLog :=
  let gv1 :=
    if gv.appendLog then
      (logThis gv ("=== Execution #" ++ gv.now ++ "  ===") "" "" gv.priority).1
    else gv
  (logThis gv1 "Initialization Complete" gv1.pid (returnVCString gv1.currentVC) gv1.priority).1

/-- InitGoVector from govec.go: copies the config, seeds the clock by
ticking a new clock once for the owning process, then prepares the log
file.  fileOk and now are the environment model inputs. -/
def initGoVector (processid logfilename : String) (config : GoLogConfig)
    (fileOk : Bool) (now : String) : GoLog :=
  let gv0 : GoLog :=
    { pid := processid,
      currentVC := vcTick vcNew processid,
      printonscreen := config.PrintOnScreen,
      logging := config.LogToFile,
      buffered := config.Buffered,
      usetimestamps := config.UseTimestamps,
      appendLog := config.AppendLog,
      priority := config.Priority,
      logfile := logfilename ++ "-Log.txt",
      output := "",
      sink := "",
      fileOk := fileOk,
      locked := false,
      now := now }
  prepareLogFile gv0

/-- EnableBufferedWrites from govec.go. -/
def enableBufferedWrites (gv : GoLog) : GoLog :=
  { gv with buffered := true }

/-- DisableBufferedWrites from govec.go. -/
def disableBufferedWrites (gv : GoLog) : GoLog :=
  let gv1 := { gv with buffered := false }
  if gv1.output ≠ "" then (flush gv1).1 else gv1

/-- A concrete logger in the Scenario A/B configuration: process P1,
threshold INFO, unbuffered, logging to a healthy file, initial clock
at P1:1, idle mutex. -/
def sP1 : GoLog :=
  { pid := "P1", currentVC := [("P1", 1)], printonscreen := false,
    logging := true, buffered := false, usetimestamps := false,
    appendLog := false, priority := .INFO, logfile := "L-Log.txt",
    output := "", sink := "", fileOk := true, locked := false, now := "" }

/-- The Scenario C receiver: process P2 with clock P2:1. -/
def sP2 : GoLog := { sP1 with pid := "P2", currentVC := [("P2", 1)] }

/-- The Scenario C receiver with a failing log file, for the unbuffered
invariant under write failure. -/
def sP2bad : GoLog := { sP2 with fileOk := false }

/-! ## Association-list clock lemmas -/

/-- The Go map invariant on the association-list model: keys are pairwise
distinct. -/
abbrev vcNodupKeys (vc : VClock) : Prop := List.Pairwise (fun p q => p.1 ≠ q.1) vc

theorem vcFind_mem {k : String} {c : Nat} :
    ∀ {vc : VClock}, vcFind vc k = some c → (k, c) ∈ vc := by
  intro vc
  induction vc with
  | nil => intro h; simp [vcFind] at h
  | cons p tl ih =>
    intro h
    obtain ⟨a, b⟩ := p
    by_cases hak : a = k
    · subst hak
      simp [vcFind] at h
      simp [h]
    · simp [vcFind, hak] at h
      exact List.mem_cons_of_mem _ (ih h)

theorem vcFind_vcSet_self : ∀ (vc : VClock) (k : String) (n : Nat),
    vcFind (vcSet vc k n) k = some n
  | [], k, n => by simp [vcSet, vcFind]
  | (a, b) :: tl, k, n => by
    by_cases hak : a = k
    · simp [vcSet, hak, vcFind]
    · simp [vcSet, hak, vcFind, vcFind_vcSet_self tl k n]

theorem vcFind_vcSet_ne : ∀ (vc : VClock) {k q : String} (n : Nat), q ≠ k →
    vcFind (vcSet vc k n) q = vcFind vc q
  | [], _, _, n, h => by simp [vcSet, vcFind, Ne.symm h]
  | (a, b) :: tl, k, q, n, h => by
    by_cases hak : a = k
    · subst hak
      simp [vcSet, vcFind, Ne.symm h]
    · simp only [vcSet, if_neg hak]
      by_cases haq : a = q
      · simp [vcFind, haq]
      · simp [vcFind, haq, vcFind_vcSet_ne tl n h]

theorem vcSet_mem : ∀ {vc : VClock} {k : String} {n : Nat} {q : String × Nat},
    q ∈ vcSet vc k n → q ∈ vc ∨ q.1 = k
  | [], k, n, q, h => by
    simp [vcSet] at h
    exact Or.inr (by simp [h])
  | (a, b) :: tl, k, n, q, h => by
    by_cases hak : a = k
    · rw [show vcSet ((a, b) :: tl) k n = (a, n) :: tl by simp [vcSet, hak]] at h
      rcases List.mem_cons.mp h with h | h
      · exact Or.inr (by simp [h, hak])
      · exact Or.inl (List.mem_cons_of_mem _ h)
    · rw [show vcSet ((a, b) :: tl) k n = (a, b) :: vcSet tl k n by simp [vcSet, hak]] at h
      rcases List.mem_cons.mp h with h | h
      · exact Or.inl (by simp [h])
      · rcases vcSet_mem h with h2 | h2
        · exact Or.inl (List.mem_cons_of_mem _ h2)
        · exact Or.inr h2

theorem vcSet_eq_append : ∀ {vc : VClock} {k : String} (n : Nat),
    (∀ p ∈ vc, p.1 ≠ k) → vcSet vc k n = vc ++ [(k, n)]
  | [], _, _, _ => rfl
  | (a, b) :: tl, k, n, h => by
    have hak : a ≠ k := h (a, b) (by simp)
    rw [show vcSet ((a, b) :: tl) k n = (a, b) :: vcSet tl k n by simp [vcSet, hak]]
    rw [vcSet_eq_append n (fun p hp => h p (List.mem_cons_of_mem _ hp))]
    simp

theorem vcSet_nodupKeys : ∀ {vc : VClock} {k : String} {n : Nat},
    vcNodupKeys vc → vcNodupKeys (vcSet vc k n)
  | [], k, n, _ => by simp [vcSet]
  | (a, b) :: tl, k, n, h => by
    rcases List.pairwise_cons.mp h with ⟨h1, h2⟩
    by_cases hak : a = k
    · rw [show vcSet ((a, b) :: tl) k n = (a, n) :: tl by simp [vcSet, hak]]
      exact List.pairwise_cons.mpr ⟨h1, h2⟩
    · rw [show vcSet ((a, b) :: tl) k n = (a, b) :: vcSet tl k n by simp [vcSet, hak]]
      refine List.pairwise_cons.mpr ⟨?_, vcSet_nodupKeys h2⟩
      intro q hq
      rcases vcSet_mem hq with hh | hh
      · exact h1 q hh
      · rw [hh]
        exact hak

theorem vcMerge_nil (vc : VClock) : vcMerge vc [] = vc := rfl

theorem vcMerge_cons (vc : VClock) (p : String × Nat) (tl : List (String × Nat)) :
    vcMerge vc (p :: tl) =
      vcMerge (vcSet vc p.1 (max ((vcFind vc p.1).getD 0) p.2)) tl := rfl

theorem vcMerge_find_notin : ∀ {ps : List (String × Nat)} {k : String} (vc : VClock),
    (∀ p ∈ ps, p.1 ≠ k) → vcFind (vcMerge vc ps) k = vcFind vc k
  | [], _, _, _ => rfl
  | (a, b) :: tl, k, vc, h => by
    have hak : a ≠ k := h (a, b) (by simp)
    rw [vcMerge_cons,
      vcMerge_find_notin _ (fun p hp => h p (List.mem_cons_of_mem _ hp)),
      vcFind_vcSet_ne _ _ (Ne.symm hak)]

theorem vcMerge_find_ge : ∀ {ps : List (String × Nat)}, vcNodupKeys ps →
    ∀ {k : String} {c : Nat}, (k, c) ∈ ps →
    ∀ (vc : VClock), ∃ d, vcFind (vcMerge vc ps) k = some d ∧ c ≤ d
  | [], _, k, c, h, _ => by simp at h
  | (a, b) :: tl, hnd, k, c, hmem, vc => by
    rcases List.pairwise_cons.mp hnd with ⟨h1, h2⟩
    rcases List.mem_cons.mp hmem with h | h
    · have hk : k = a := congrArg Prod.fst h
      have hc : c = b := congrArg Prod.snd h
      subst hk
      subst hc
      refine ⟨max ((vcFind vc k).getD 0) c, ?_, le_max_right _ _⟩
      have hnotin : ∀ p ∈ tl, p.1 ≠ k := fun p hp => Ne.symm (h1 p hp)
      rw [vcMerge_cons, vcMerge_find_notin _ hnotin, vcFind_vcSet_self]
    · exact vcMerge_find_ge h2 h _

/-! ## Codec lemmas -/

theorem decodeVcPairs_encodePairs :
    ∀ (ps acc : List (String × Nat)) (rest : List MsgToken),
    decodeVcPairs ps.length acc (encodePairs ps ++ rest) =
      (ps.foldl (fun a p => vcSet a p.1 p.2) acc, none, rest)
  | [], acc, rest => rfl
  | (k, v) :: tl, acc, rest => by
    simp [encodePairs, decodeVcPairs, readStr, readUint,
      decodeVcPairs_encodePairs tl (vcSet acc k v) rest]

theorem foldl_vcSet_append : ∀ (ps acc : List (String × Nat)),
    (∀ p ∈ ps, ∀ q ∈ acc, q.1 ≠ p.1) → vcNodupKeys ps →
    ps.foldl (fun a p => vcSet a p.1 p.2) acc = acc ++ ps
  | [], acc, _, _ => by simp
  | (k, v) :: tl, acc, hdis, hnd => by
    rcases List.pairwise_cons.mp hnd with ⟨h1, h2⟩
    have hX : ∀ p ∈ tl, ∀ q ∈ acc ++ [(k, v)], q.1 ≠ p.1 := by
      intro p hp q hq
      rcases List.mem_append.mp hq with h | h
      · exact hdis p (List.mem_cons_of_mem _ hp) q h
      · have hq2 : q = (k, v) := by simpa using h
        rw [hq2]
        exact h1 p hp
    simp only [List.foldl_cons]
    rw [show vcSet acc k v = acc ++ [(k, v)] from
        vcSet_eq_append v (fun q hq => hdis (k, v) (by simp) q hq),
      foldl_vcSet_append tl (acc ++ [(k, v)]) hX h2]
    simp

theorem decode_encode (d0 e : ClockPayload) (hnd : vcNodupKeys e.VcMap) :
    decodeMsgpack d0 (encTokens e) =
      ({ Pid := e.Pid, VcMap := e.VcMap, Payload := e.Payload }, some "EOF") := by
  have hpairs := decodeVcPairs_encodePairs e.VcMap [] []
  rw [foldl_vcSet_append e.VcMap [] (by simp) hnd] at hpairs
  simp only [encTokens, decodeMsgpack, readStr, readVal, readMapLen, List.append_nil] at *
  rw [hpairs]
  simp [decodeTrailing, readStr]

/-! ## State-preservation helper lemmas -/

theorem flush_currentVC (gv : GoLog) : (flush gv).1.currentVC = gv.currentVC := by
  simp only [flush]; split <;> rfl

theorem flush_pid (gv : GoLog) : (flush gv).1.pid = gv.pid := by
  simp only [flush]; split <;> rfl

theorem flush_locked (gv : GoLog) : (flush gv).1.locked = gv.locked := by
  simp only [flush]; split <;> rfl

theorem flush_priority (gv : GoLog) : (flush gv).1.priority = gv.priority := by
  simp only [flush]; split <;> rfl

theorem flush_buffered (gv : GoLog) : (flush gv).1.buffered = gv.buffered := by
  simp only [flush]; split <;> rfl

theorem flush_logging (gv : GoLog) : (flush gv).1.logging = gv.logging := by
  simp only [flush]; split <;> rfl

theorem flush_fileOk (gv : GoLog) : (flush gv).1.fileOk = gv.fileOk := by
  simp only [flush]; split <;> rfl

theorem flush_output (gv : GoLog) : (flush gv).1.output = "" := by
  simp only [flush]

theorem flush_sink (gv : GoLog) :
    (flush gv).1.sink = (if gv.fileOk then gv.sink ++ gv.output else gv.sink) := by
  simp only [flush]; split <;> simp_all

theorem flush_snd (gv : GoLog) : (flush gv).2 = gv.fileOk := by
  simp only [flush]

attribute [simp] flush_currentVC flush_pid flush_locked flush_priority
  flush_buffered flush_logging flush_fileOk flush_output flush_snd

theorem logThis_currentVC (gv : GoLog) (a b c : String) (P : LogPriority) :
    (logThis gv a b c P).1.currentVC = gv.currentVC := by
  simp only [logThis]; split <;> simp

theorem logThis_pid (gv : GoLog) (a b c : String) (P : LogPriority) :
    (logThis gv a b c P).1.pid = gv.pid := by
  simp only [logThis]; split <;> simp

theorem logThis_locked (gv : GoLog) (a b c : String) (P : LogPriority) :
    (logThis gv a b c P).1.locked = gv.locked := by
  simp only [logThis]; split <;> simp

theorem logThis_priority (gv : GoLog) (a b c : String) (P : LogPriority) :
    (logThis gv a b c P).1.priority = gv.priority := by
  simp only [logThis]; split <;> simp

theorem logThis_buffered (gv : GoLog) (a b c : String) (P : LogPriority) :
    (logThis gv a b c P).1.buffered = gv.buffered := by
  simp only [logThis]; split <;> simp

theorem logThis_logging (gv : GoLog) (a b c : String) (P : LogPriority) :
    (logThis gv a b c P).1.logging = gv.logging := by
  simp only [logThis]; split <;> simp

theorem logThis_fileOk (gv : GoLog) (a b c : String) (P : LogPriority) :
    (logThis gv a b c P).1.fileOk = gv.fileOk := by
  simp only [logThis]; split <;> simp

theorem logThis_output_unbuffered (gv : GoLog) (a b c : String) (P : LogPriority)
    (hb : gv.buffered = false) : (logThis gv a b c P).1.output = "" := by
  simp [logThis, hb]

attribute [simp] logThis_currentVC logThis_pid logThis_locked logThis_priority
  logThis_buffered logThis_logging logThis_fileOk

theorem logWriteWrapper_currentVC (gv : GoLog) (a b : String) (P : LogPriority) :
    (logWriteWrapper gv a b P).1.currentVC = gv.currentVC := by
  by_cases h : gv.logging <;> simp [logWriteWrapper, h]

theorem logWriteWrapper_pid (gv : GoLog) (a b : String) (P : LogPriority) :
    (logWriteWrapper gv a b P).1.pid = gv.pid := by
  by_cases h : gv.logging <;> simp [logWriteWrapper, h]

theorem logWriteWrapper_locked (gv : GoLog) (a b : String) (P : LogPriority) :
    (logWriteWrapper gv a b P).1.locked = gv.locked := by
  by_cases h : gv.logging <;> simp [logWriteWrapper, h]

theorem logWriteWrapper_buffered (gv : GoLog) (a b : String) (P : LogPriority) :
    (logWriteWrapper gv a b P).1.buffered = gv.buffered := by
  by_cases h : gv.logging <;> simp [logWriteWrapper, h]

theorem logWriteWrapper_output_unbuffered (gv : GoLog) (a b : String) (P : LogPriority)
    (hb : gv.buffered = false) (h0 : gv.output = "") :
    (logWriteWrapper gv a b P).1.output = "" := by
  by_cases h : gv.logging
  · simp [logWriteWrapper, h, logThis_output_unbuffered gv _ _ _ P hb]
  · simp [logWriteWrapper, h, h0]

attribute [simp] logWriteWrapper_currentVC logWriteWrapper_pid
  logWriteWrapper_locked logWriteWrapper_buffered

/-! ## General behavioural lemmas about the three event operations -/

theorem prepareSend_spec (gv : GoLog) (m : String) (v : GoValue) (P : LogPriority)
    (hP : priorityGe P gv.priority = true) (hv : v.encodable = true) :
    (prepareSendWithPriority gv m v P).1.currentVC = vcTick gv.currentVC gv.pid ∧
    (prepareSendWithPriority gv m v P).2 =
      encTokens { Pid := gv.pid, VcMap := vcTick gv.currentVC gv.pid, Payload := v } := by
  simp [prepareSendWithPriority, tickClock, encodeMsgpack, hP, hv]

theorem unpackReceive_clock (gv : GoLog) (m : String) (buf : List MsgToken)
    (unpack : GoValue) (P : LogPriority) (hP : priorityGe P gv.priority = true) :
    (unpackReceiveWithPriority gv m buf unpack P).1.currentVC =
      vcMerge (vcTick gv.currentVC gv.pid)
        (decodeMsgpack { Pid := "", VcMap := [], Payload := unpack } buf).1.VcMap := by
  simp [unpackReceiveWithPriority, mergeIncomingClock, tickClock, hP]

/-! ## Claim theorems -/

/-- Claim C1 counterexample: for the concrete logger sP1 (threshold INFO)
and an empty receive buffer, the decode fails, yet the receive changes the
vector clock: the clock is not left as it was before the call. -/
theorem receive_decode_failure_changes_clock_cex :
    (decodeMsgpack { Pid := "", VcMap := [], Payload := GoValue.vnil } []).2 ≠ none ∧
    (unpackReceiveWithPriority sP1 "m" [] GoValue.vnil .INFO).1.currentVC ≠ sP1.currentVC := by
  decide

/-- Claim C1 (amended): on a priority-passing Receive whose decode of the
incoming bytes fails, the failure is not surfaced (it is only written to
the internal diagnostic logger) and the tick and the merge still execute:
the resulting clock is the tick of the local clock merged with whatever
partial clock map the failed decode produced, not the pre-call clock. -/
theorem receive_decode_failure_ticks_and_merges (gv : GoLog) (m : String)
    (buf : List MsgToken) (unpack : GoValue) (P : LogPriority)
    (hP : priorityGe P gv.priority = true)
    (_hfail : (decodeMsgpack { Pid := "", VcMap := [], Payload := unpack } buf).2 ≠ none) :
    (unpackReceiveWithPriority gv m buf unpack P).1.currentVC =
      vcMerge (vcTick gv.currentVC gv.pid)
        (decodeMsgpack { Pid := "", VcMap := [], Payload := unpack } buf).1.VcMap :=
  unpackReceive_clock gv m buf unpack P hP

/-- Claim C1 witness: the amended statement at the concrete receiver sP2
with an empty buffer, whose decode fails immediately. -/
theorem receive_decode_failure_ticks_and_merges_witness :
    (priorityGe .INFO sP2.priority = true ∧
      (decodeMsgpack { Pid := "", VcMap := [], Payload := GoValue.vnil } []).2 ≠ none) ∧
    (unpackReceiveWithPriority sP2 "m" [] GoValue.vnil .INFO).1.currentVC =
      vcMerge (vcTick sP2.currentVC sP2.pid)
        (decodeMsgpack { Pid := "", VcMap := [], Payload := GoValue.vnil } []).1.VcMap :=
  ⟨⟨by decide, by decide⟩,
    receive_decode_failure_ticks_and_merges sP2 "m" [] GoValue.vnil .INFO
      (by decide) (by decide)⟩

/-- Claim C2 (code bug, evaluated at the failing input): a Send or Receive
call whose priority is suppressed by the threshold returns with the mutex
still locked, because the Unlock call sits inside the priority-passing
branch; only LocalEvent releases the lock on every path.  The logger
starts with the lock free. -/
theorem suppressed_send_receive_leave_mutex_locked :
    sP1.locked = false ∧
    (prepareSendWithPriority sP1 "m" (GoValue.vstr "x") .DEBUG).1.locked = true ∧
    (unpackReceiveWithPriority sP1 "m" [] GoValue.vnil .DEBUG).1.locked = true ∧
    (logLocalEventWithPriority sP1 "m" .DEBUG).1.locked = false := by
  decide

/-- Claim C3 counterexample: sending the unsupported payload GoValue.vfunc
at a passing priority returns nil bytes, but the clock does not equal its
pre-call value: it was already ticked when the encode was attempted. -/
theorem send_encoding_failure_clock_changed_cex :
    GoValue.vfunc.encodable = false ∧
    (prepareSendWithPriority sP1 "m" GoValue.vfunc .INFO).2 = [] ∧
    (prepareSendWithPriority sP1 "m" GoValue.vfunc .INFO).1.currentVC ≠ sP1.currentVC := by
  decide

/-- Claim C3 (amended): when the encoding strategy rejects the payload of
a priority-passing Send, the call returns nil bytes and surfaces no error,
but the tick (and the log record) happen before the encode, so the clock
ends at the tick of its pre-call value rather than unchanged. -/
theorem send_encoding_failure_ticks_then_aborts (gv : GoLog) (m : String)
    (v : GoValue) (P : LogPriority)
    (hP : priorityGe P gv.priority = true) (hv : v.encodable = false) :
    (prepareSendWithPriority gv m v P).2 = [] ∧
    (prepareSendWithPriority gv m v P).1.currentVC = vcTick gv.currentVC gv.pid := by
  simp [prepareSendWithPriority, tickClock, encodeMsgpack, hP, hv]

/-- Claim C3 witness: the amended statement at the concrete logger sP2
with the rejected payload GoValue.vfunc. -/
theorem send_encoding_failure_ticks_then_aborts_witness :
    (priorityGe .INFO sP2.priority = true ∧ GoValue.vfunc.encodable = false) ∧
    ((prepareSendWithPriority sP2 "m" GoValue.vfunc .INFO).2 = [] ∧
      (prepareSendWithPriority sP2 "m" GoValue.vfunc .INFO).1.currentVC =
        vcTick sP2.currentVC sP2.pid) :=
  ⟨⟨by decide, by decide⟩,
    send_encoding_failure_ticks_then_aborts sP2 "m" GoValue.vfunc .INFO
      (by decide) (by decide)⟩

/-- The Scenario B envelope: sender P1 with post-tick clock P1:2 and
payload "hello". -/
def envB : ClockPayload :=
  { Pid := "P1", VcMap := [("P1", 2)], Payload := GoValue.vstr "hello" }

/-- Claim C4 (code bug, evaluated at the failing input): encoding the
Scenario B envelope and decoding the result recovers all three fields,
but the trailing dec.Decode(three targets) call at the end of
DecodeMsgpack reads past the end of the encoded stream, so the decode
reports an EOF error instead of succeeding. -/
theorem default_roundtrip_reports_error :
    encodeMsgpack envB = Except.ok
      [.tstr "P1", .tval (GoValue.vstr "hello"), .tmapLen 1, .tstr "P1", .tuint 2] ∧
    (decodeMsgpack { Pid := "", VcMap := [], Payload := GoValue.vnil } (encTokens envB)).1
      = envB ∧
    (decodeMsgpack { Pid := "", VcMap := [], Payload := GoValue.vnil } (encTokens envB)).2
      ≠ none :=
  ⟨rfl, by decide, by decide⟩

/-- Claim C5: if a priority-passing Send by sx produces an envelope whose
snapshot is the post-tick clock S, then a priority-passing Receive of
those bytes on sy yields a merged clock M with M[k] at least S[k] for
every key k of S (tick of own component, then component-wise max merge). -/
theorem receive_clock_dominates_send_snapshot (sx sy : GoLog)
    (m m2 : String) (v unpack : GoValue) (P Q : LogPriority)
    (hP : priorityGe P sx.priority = true)
    (hQ : priorityGe Q sy.priority = true)
    (hv : v.encodable = true)
    (hnd : vcNodupKeys sx.currentVC) :
    ∀ k c, vcFind (prepareSendWithPriority sx m v P).1.currentVC k = some c →
      ∃ d, vcFind (unpackReceiveWithPriority sy m2
          (prepareSendWithPriority sx m v P).2 unpack Q).1.currentVC k = some d ∧
        c ≤ d := by
  obtain ⟨hclock, hbytes⟩ := prepareSend_spec sx m v P hP hv
  intro k c hk
  rw [hclock] at hk
  rw [hbytes, unpackReceive_clock sy m2 _ unpack Q hQ]
  have hnd2 : vcNodupKeys (vcTick sx.currentVC sx.pid) := vcSet_nodupKeys hnd
  rw [decode_encode _ _ hnd2]
  exact vcMerge_find_ge hnd2 (vcFind_mem hk) _

/-- Claim C5 witness: the Scenario B and C pipeline concretely: P1 with
clock P1:1 sends "hello", P2 with clock P2:1 receives the bytes and ends
with clock P1:2, P2:2, dominating the snapshot P1:2. -/
theorem receive_clock_dominates_send_snapshot_witness :
    (priorityGe .INFO sP1.priority = true ∧ priorityGe .INFO sP2.priority = true ∧
      (GoValue.vstr "hello").encodable = true ∧ vcNodupKeys sP1.currentVC) ∧
    (∀ k c,
      vcFind (prepareSendWithPriority sP1 "go" (GoValue.vstr "hello") .INFO).1.currentVC k
        = some c →
      ∃ d, vcFind (unpackReceiveWithPriority sP2 "recv"
          (prepareSendWithPriority sP1 "go" (GoValue.vstr "hello") .INFO).2
          GoValue.vnil .INFO).1.currentVC k = some d ∧ c ≤ d) ∧
    (vcFind (unpackReceiveWithPriority sP2 "recv"
        (prepareSendWithPriority sP1 "go" (GoValue.vstr "hello") .INFO).2
        GoValue.vnil .INFO).1.currentVC "P1" = some 2 ∧
      vcFind (unpackReceiveWithPriority sP2 "recv"
        (prepareSendWithPriority sP1 "go" (GoValue.vstr "hello") .INFO).2
        GoValue.vnil .INFO).1.currentVC "P2" = some 2 ∧
      (unpackReceiveWithPriority sP2 "recv"
        (prepareSendWithPriority sP1 "go" (GoValue.vstr "hello") .INFO).2
        GoValue.vnil .INFO).1.currentVC.length = 2) :=
  ⟨⟨by decide, by decide, by decide, by decide⟩,
    receive_clock_dominates_send_snapshot sP1 sP2 "go" "recv" (GoValue.vstr "hello")
      GoValue.vnil .INFO .INFO (by decide) (by decide) (by decide) (by decide),
    by decide⟩

/-- Claim C6: for every non-suppressed Send with an encodable payload, the
snapshot placed in the outgoing envelope is the sender's clock after that
send's own tick: the returned bytes are the encoding of exactly the
envelope with the post-tick clock. -/
theorem send_snapshot_taken_after_tick (gv : GoLog) (m : String) (v : GoValue)
    (P : LogPriority) (hP : priorityGe P gv.priority = true) (hv : v.encodable = true) :
    (prepareSendWithPriority gv m v P).1.currentVC = vcTick gv.currentVC gv.pid ∧
    (prepareSendWithPriority gv m v P).2 =
      encTokens { Pid := gv.pid, VcMap := vcTick gv.currentVC gv.pid, Payload := v } :=
  prepareSend_spec gv m v P hP hv

/-- Claim C6 witness: Scenario B concretely: P1 with clock P1:1 sends
"hello"; the returned bytes decode field-wise to the envelope with sender
P1, clock P1:2 and payload "hello". -/
theorem send_snapshot_taken_after_tick_witness :
    (priorityGe .INFO sP1.priority = true ∧ (GoValue.vstr "hello").encodable = true) ∧
    ((prepareSendWithPriority sP1 "go" (GoValue.vstr "hello") .INFO).1.currentVC =
        vcTick sP1.currentVC sP1.pid ∧
      (prepareSendWithPriority sP1 "go" (GoValue.vstr "hello") .INFO).2 =
        encTokens { Pid := sP1.pid, VcMap := vcTick sP1.currentVC sP1.pid, Payload := GoValue.vstr "hello" }) ∧
    (decodeMsgpack { Pid := "", VcMap := [], Payload := GoValue.vnil }
        (prepareSendWithPriority sP1 "go" (GoValue.vstr "hello") .INFO).2).1 =
      { Pid := "P1", VcMap := [("P1", 2)], Payload := GoValue.vstr "hello" } :=
  ⟨⟨by decide, by decide⟩,
    send_snapshot_taken_after_tick sP1 "go" (GoValue.vstr "hello") .INFO
      (by decide) (by decide),
    by decide⟩

/-- Claim C7: initialization creates the vector clock with exactly one
entry, the owning process id mapped to 1 (first tick already applied),
for every process id and configuration; and Scenario A: the logger P1 at
threshold INFO calling LocalEvent("start") at the default priority ends
with clock P1:2.  The clock seeding is modelled from the spec, since the
vclock package is outside the studied source. -/
theorem init_seeds_clock_at_one (pid fname : String) (cfg : GoLogConfig)
    (fileOk : Bool) (now : String) :
    (initGoVector pid fname cfg fileOk now).currentVC = [(pid, 1)] ∧
    (logLocalEvent (initGoVector "P1" "f" getDefaultConfig true "") "start").1.currentVC
      = [("P1", 2)] := by
  constructor
  · by_cases ha : cfg.AppendLog <;>
      simp [initGoVector, prepareLogFile, ha, vcTick, vcNew, vcFind, vcSet]
  · decide

/-- Claim C8: an event whose priority is strictly below the threshold
leaves the vector clock, the pending-output buffer and the persistence
sink entirely unchanged, for all three operations. -/
theorem suppressed_event_is_noop_on_state (gv : GoLog) (m : String)
    (v : GoValue) (buf : List MsgToken) (unpack : GoValue) (P : LogPriority)
    (hP : priorityGe P gv.priority = false) :
    ((logLocalEventWithPriority gv m P).1.currentVC = gv.currentVC ∧
      (logLocalEventWithPriority gv m P).1.output = gv.output ∧
      (logLocalEventWithPriority gv m P).1.sink = gv.sink) ∧
    ((prepareSendWithPriority gv m v P).1.currentVC = gv.currentVC ∧
      (prepareSendWithPriority gv m v P).1.output = gv.output ∧
      (prepareSendWithPriority gv m v P).1.sink = gv.sink) ∧
    ((unpackReceiveWithPriority gv m buf unpack P).1.currentVC = gv.currentVC ∧
      (unpackReceiveWithPriority gv m buf unpack P).1.output = gv.output ∧
      (unpackReceiveWithPriority gv m buf unpack P).1.sink = gv.sink) := by
  simp [logLocalEventWithPriority, prepareSendWithPriority,
    unpackReceiveWithPriority, hP]

/-- Claim C8 witness: a DEBUG event against the INFO threshold of the
concrete logger sP1 is suppressed and changes none of clock, buffer and
sink, for all three operations. -/
theorem suppressed_event_is_noop_on_state_witness :
    (priorityGe .DEBUG sP1.priority = false) ∧
    (((logLocalEventWithPriority sP1 "m" .DEBUG).1.currentVC = sP1.currentVC ∧
      (logLocalEventWithPriority sP1 "m" .DEBUG).1.output = sP1.output ∧
      (logLocalEventWithPriority sP1 "m" .DEBUG).1.sink = sP1.sink) ∧
    ((prepareSendWithPriority sP1 "m" (GoValue.vstr "x") .DEBUG).1.currentVC = sP1.currentVC ∧
      (prepareSendWithPriority sP1 "m" (GoValue.vstr "x") .DEBUG).1.output = sP1.output ∧
      (prepareSendWithPriority sP1 "m" (GoValue.vstr "x") .DEBUG).1.sink = sP1.sink) ∧
    ((unpackReceiveWithPriority sP1 "m" [] GoValue.vnil .DEBUG).1.currentVC = sP1.currentVC ∧
      (unpackReceiveWithPriority sP1 "m" [] GoValue.vnil .DEBUG).1.output = sP1.output ∧
      (unpackReceiveWithPriority sP1 "m" [] GoValue.vnil .DEBUG).1.sink = sP1.sink)) :=
  ⟨by decide,
    suppressed_event_is_noop_on_state sP1 "m" (GoValue.vstr "x") [] GoValue.vnil .DEBUG
      (by decide)⟩

/-- Claim C9: in unbuffered mode (given the reachable-state invariant that
the buffer was empty before the call) the pending-output buffer is empty
immediately after any of the three logging calls returns, including when
the log-file open or write fails (gv.fileOk is unconstrained). -/
theorem unbuffered_output_empty_after_calls (gv : GoLog) (m : String)
    (v : GoValue) (buf : List MsgToken) (unpack : GoValue) (P : LogPriority)
    (hb : gv.buffered = false) (h0 : gv.output = "") :
    (logLocalEventWithPriority gv m P).1.output = "" ∧
    (prepareSendWithPriority gv m v P).1.output = "" ∧
    (unpackReceiveWithPriority gv m buf unpack P).1.output = "" := by
  refine ⟨?_, ?_, ?_⟩
  · cases hP : priorityGe P gv.priority with
    | false => simp [logLocalEventWithPriority, hP, h0]
    | true =>
      simp [logLocalEventWithPriority, tickClock, hP, h0, hb,
        logWriteWrapper_output_unbuffered]
  · cases hP : priorityGe P gv.priority with
    | false => simp [prepareSendWithPriority, hP, h0]
    | true =>
      simp only [prepareSendWithPriority]
      rw [show priorityGe P ({ gv with locked := true } : GoLog).priority = true from hP]
      simp only [if_true]
      split <;>
        simp_all [tickClock, logWriteWrapper_output_unbuffered]
  · cases hP : priorityGe P gv.priority with
    | false => simp [unpackReceiveWithPriority, hP, h0]
    | true =>
      simp [unpackReceiveWithPriority, mergeIncomingClock, tickClock, hP, h0, hb,
        logWriteWrapper_output_unbuffered]

/-- Claim C9 witness: the concrete unbuffered logger sP2bad, whose log
file fails to open or write, still has an empty buffer after each of the
three calls. -/
theorem unbuffered_output_empty_after_calls_witness :
    (sP2bad.buffered = false ∧ sP2bad.output = "") ∧
    ((logLocalEventWithPriority sP2bad "m" .INFO).1.output = "" ∧
      (prepareSendWithPriority sP2bad "m" (GoValue.vstr "x") .INFO).1.output = "" ∧
      (unpackReceiveWithPriority sP2bad "m" [] GoValue.vnil .INFO).1.output = "") :=
  ⟨⟨by decide, by decide⟩,
    unbuffered_output_empty_after_calls sP2bad "m" (GoValue.vstr "x") [] GoValue.vnil
      .INFO (by decide) (by decide)⟩

/-- Claim C10: Flush always clears the in-memory buffer, even when the
file open or write fails; it returns false exactly when the file fails,
and on failure the sink is unchanged: the buffered records are discarded,
not retained for retry. -/
theorem flush_always_empties_buffer (gv : GoLog) :
    (flush gv).1.output = "" ∧
    (flush gv).2 = gv.fileOk ∧
    (flush gv).1.sink = (if gv.fileOk then gv.sink ++ gv.output else gv.sink) :=
  ⟨flush_output gv, flush_snd gv, flush_sink gv⟩
